import Mathlib

set_option linter.unusedVariables false

/-!
Shallow embedding of the facade generator of `battery-pack/src/build.rs`.

The generator is a pure function from a parsed TOML manifest and a
bundle resolver to generated Rust source text.  TOML values are embedded
as the inductive `Toml`; the resolver trait `BatteryPackResolver` is
embedded as a function `String → Option Toml`; the generator methods of
`FacadeGenerator` become top-level functions taking the resolver
explicitly.  Rust's stable sorts (`Vec::sort`, `sort_by_key`) are
modelled by insertion sort, which is also stable, over the same
lexicographic string order that Rust's `Ord for String` implements
(code-point order coincides with UTF-8 byte order).
-/

/-- Embedding of `toml::Value` (the constructors the generator inspects:
strings, arrays and tables; `int`/`boolean` stand for all other shapes,
which the generator only ever skips). -/
inductive Toml where
  | str (s : String)
  | int (n : Int)
  | boolean (b : Bool)
  | arr (xs : List Toml)
  | table (kvs : List (String × Toml))

/-- Embedding of `toml::Value::get`: table lookup by key, `None` on any
non-table value. -/
def Toml.get (v : Toml) (key : String) : Option Toml :=
  match v with
  | .table kvs => kvs.lookup key
  | _ => none

/-- Embedding of `toml::Value::as_str`. -/
def Toml.asStr : Toml → Option String
  | .str s => some s
  | _ => none

/-- Embedding of `toml::Value::as_array`. -/
def Toml.asArray : Toml → Option (List Toml)
  | .arr xs => some xs
  | _ => none

/-- Embedding of `toml::Value::as_table`. -/
def Toml.asTable : Toml → Option (List (String × Toml))
  | .table kvs => some kvs
  | _ => none

/-- Lexicographic order on char lists, the order `Ord for String`
induces in Rust (UTF-8 byte order equals code-point order). -/
def charListLe : List Char → List Char → Bool
  | [], _ => true
  | _ :: _, [] => false
  | a :: as, b :: bs => if a = b then charListLe as bs else decide (a < b)

/-- Rust's `String` order as a Boolean relation on Lean strings. -/
def string_le (a b : String) : Bool :=
  charListLe a.data b.data

/-- The order used to sort dependency names, as a `Prop` relation. -/
def strle (a b : String) : Prop := string_le a b = true

instance : DecidableRel strle := fun a b => inferInstanceAs (Decidable (_ = true))

/-- The key order used by `entries.sort_by_key(|(k, _)| *k)`. -/
def keyLe (a b : String × Toml) : Prop := string_le a.1 b.1 = true

instance : DecidableRel keyLe := fun a b => inferInstanceAs (Decidable (_ = true))

/-- Embedding of `Vec<String>::sort` (stable sort by the string order). -/
def sortStrings (l : List String) : List String :=
  l.insertionSort strle

/-- Embedding of `Vec<(String, Toml)>::sort_by_key(|(k, _)| *k)`
(stable sort by key). -/
def sortByKey (l : List (String × Toml)) : List (String × Toml) :=
  l.insertionSort keyLe

/-- Substring occurrence test over char lists, used to state that some
text does or does not appear in generated output. -/
def charsHaveSub (pat : List Char) : List Char → Bool
  | [] => pat.isEmpty
  | c :: rest => pat.isPrefixOf (c :: rest) || charsHaveSub pat rest

/-- Whether the string `pat` occurs as a contiguous substring of `s`. -/
def occursIn (pat s : String) : Bool :=
  charsHaveSub pat.data s.data

/-- Embedding of `crate_name.replace('-', "_")`: every hyphen becomes an
underscore. -/
def sanitize (name : String) : String :=
  String.mk (name.data.map (fun c => if c = '-' then '_' else c))

/-- Embedding of `is_rust_keyword`. -/
def is_rust_keyword (s : String) : Bool :=
  ([ "as", "async", "await", "break", "const", "continue", "crate", "dyn",
     "else", "enum", "extern", "false", "fn", "for", "if", "impl", "in",
     "let", "loop", "match", "mod", "move", "mut", "pub", "ref", "return",
     "self", "Self", "static", "struct", "super", "trait", "true", "type",
     "unsafe", "use", "where", "while" ] : List String).contains s

/-- Embedding of the module-identifier computation in
`generate_module_exports`: keyword module names get the `r#` escape,
all other module names are used verbatim. -/
def mod_ident (module_name : String) : String :=
  if is_rust_keyword module_name then "r#" ++ module_name else module_name

/-- Embedding of `InMemoryResolver::resolve` over its `BTreeMap` of
manifests. -/
def in_memory_resolve (manifests : List (String × Toml)) :
    String → Option Toml :=
  fun crate_name => manifests.lookup crate_name

/-- Embedding of `FileSystemResolver::resolve`: look up the dependency's
manifest path, read the file (`fs::read_to_string(path).ok()?` becomes
the abstract `read_file`), then parse it (`toml::from_str(..).ok()?`
becomes the abstract `parse_toml`); any failure yields `none`. -/
def file_system_resolve (paths : List (String × String))
    (read_file : String → Option String)
    (parse_toml : String → Option Toml) : String → Option Toml :=
  fun crate_name =>
    (paths.lookup crate_name).bind (fun path =>
      (read_file path).bind (fun content => parse_toml content))

/-- Embedding of the `manifest.get("package").and_then(get "metadata")
.and_then(get "battery")` chain used both in `generate` and in
`generate_battery_pack_reexport`. -/
def get_battery (manifest : Toml) : Option Toml :=
  ((manifest.get ("package")).bind (fun p => p.get ("metadata"))).bind
    (fun m => m.get ("battery"))

/-- Embedding of `FacadeGenerator::get_exclude_set`: the string entries
of the `exclude` array, with `"battery-pack"` always inserted. -/
def get_exclude_set (battery : Option Toml) : List String :=
  let explicit :=
    (((battery.bind (fun b => b.get ("exclude"))).bind Toml.asArray).map
      (fun arr => arr.filterMap Toml.asStr)).getD []
  "battery-pack" :: explicit

/-- Embedding of `FacadeGenerator::get_dependencies`: the keys of the
manifest's `dependencies` table, sorted. -/
def get_dependencies (manifest : Toml) : List String :=
  let deps :=
    (((manifest.get ("dependencies")).bind Toml.asTable).map
      (fun t => t.map Prod.fst)).getD []
  sortStrings deps

/-- The inner bundle's dependency list computed at the start of
`generate_battery_pack_reexport`: keys of its `dependencies` table,
sorted. -/
def bp_deps_of (bp_manifest : Toml) : List String :=
  sortStrings
    ((((bp_manifest.get ("dependencies")).bind Toml.asTable).map
      (fun t => t.map Prod.fst)).getD [])

/-- The inner bundle's exclude set computed in
`generate_battery_pack_reexport`: its own `exclude` entries with
`"battery-pack"` always inserted. -/
def bp_exclude_of (bp_manifest : Toml) : List String :=
  "battery-pack" ::
    ((((get_battery bp_manifest).bind (fun b => b.get ("exclude"))).bind
      Toml.asArray).map (fun arr => arr.filterMap Toml.asStr)).getD []

/-- Embedding of `FacadeGenerator::generate_battery_pack_reexport`: one
qualified re-export `pub use bp_ident::dep;` per non-excluded dependency
of the inner bundle, in sorted order.  Note that the resolver is not
consulted: inner dependencies are never expanded further. -/
def generate_battery_pack_reexport (bp_ident : String) (bp_manifest : Toml)
    (indent : String) : String :=
  String.join ((bp_deps_of bp_manifest).filterMap (fun dep =>
    if (bp_exclude_of bp_manifest).contains dep then none
    else some (indent ++ "pub use " ++ bp_ident ++ "::" ++ sanitize dep ++ ";\n")))

/-- Embedding of `FacadeGenerator::generate_dep_export`: a battery-pack
dependency is flattened via `generate_battery_pack_reexport`, any other
crate gets a plain `pub use ident;`. -/
def generate_dep_export (resolver : String → Option Toml)
    (crate_name : String) (indent : String) : String :=
  let ident := sanitize crate_name
  match resolver crate_name with
  | some bp_manifest => generate_battery_pack_reexport ident bp_manifest indent
  | none => indent ++ "pub use " ++ ident ++ ";\n"

/-- Embedding of the per-item body of the array branches of
`generate_root_exports` and `generate_module_exports`: non-string items
are skipped, excluded names are skipped, the rest delegate to
`generate_dep_export`. -/
def list_item_export (resolver : String → Option Toml)
    (exclude : List String) (indent : String) (item : Toml) : Option String :=
  (item.asStr).bind (fun crate_name =>
    if exclude.contains crate_name then none
    else some (generate_dep_export resolver crate_name indent))

/-- Embedding of the per-entry body of the table branches of
`generate_root_exports` and `generate_module_exports`: excluded keys are
skipped; the wildcard string emits a glob re-export; an array emits one
re-export listing the string items in configuration order, skipped when
that list is empty; every other shape is skipped. -/
def map_entry_export (exclude : List String) (indent : String)
    (entry : String × Toml) : Option String :=
  if exclude.contains entry.1 then none
  else
    let ident := sanitize entry.1
    match entry.2 with
    | .str s => if s == "*" then some (indent ++ "pub use " ++ ident ++ "::*;\n") else none
    | .arr items =>
      let item_strs := items.filterMap Toml.asStr
      if item_strs.isEmpty then none
      else some (indent ++ "pub use " ++ ident ++ "::\x7b" ++
        String.intercalate (", ") item_strs ++ "\x7d;\n")
    | _ => none

/-- Embedding of `FacadeGenerator::generate_root_exports`: the array
form is processed in configuration order, the table form is sorted by
key first, any other shape emits nothing. -/
def generate_root_exports (resolver : String → Option Toml) (root : Toml)
    (exclude : List String) : String :=
  match root with
  | .arr items =>
    String.join (items.filterMap (list_item_export resolver exclude ("")))
  | .table tbl =>
    String.join ((sortByKey tbl).filterMap (map_entry_export exclude ("")))
  | _ => ""

/-- Embedding of `FacadeGenerator::generate_module_exports`: module
entries sorted by name, each opening a `pub mod` block whose body is the
array/table emission with four-space indent. -/
def generate_module_exports (resolver : String → Option Toml)
    (modules : Toml) (exclude : List String) : String :=
  match modules.asTable with
  | none => ""
  | some tbl =>
    String.join ((sortByKey tbl).map (fun entry =>
      let body :=
        match entry.2 with
        | .arr items =>
          String.join (items.filterMap (list_item_export resolver exclude ("    ")))
        | .table t =>
          String.join ((sortByKey t).filterMap (map_entry_export exclude ("    ")))
        | _ => ""
      "\npub mod " ++ mod_ident entry.1 ++ " \x7b\n" ++ body ++ "\x7d\n"))

/-- Embedding of the zero-configuration branch body of
`FacadeGenerator::generate`: excluded dependencies emit nothing, the
rest delegate to `generate_dep_export`. -/
def default_dep_export (resolver : String → Option Toml)
    (exclude : List String) (dep : String) : Option String :=
  if exclude.contains dep then none
  else some (generate_dep_export resolver dep (""))

/-- Embedding of `FacadeGenerator::generate`: banner, then root exports
when `root` is configured, then module exports when `modules` is
configured, then the zero-configuration wholesale export of all
non-excluded dependencies when neither is configured. -/
def generate (manifest : Toml) (resolver : String → Option Toml) : String :=
  let banner := "// Auto-generated by battery-pack. Do not edit.\n\n"
  let battery := get_battery manifest
  let exclude := get_exclude_set battery
  let deps := get_dependencies manifest
  let root_config := battery.bind (fun b => b.get ("root"))
  let modules_config := battery.bind (fun b => b.get ("modules"))
  let root_code :=
    match root_config with
    | some root => generate_root_exports resolver root exclude
    | none => ""
  let modules_code :=
    match modules_config with
    | some modules => generate_module_exports resolver modules exclude
    | none => ""
  let has_explicit_config := root_config.isSome || modules_config.isSome
  let default_code :=
    if has_explicit_config then ""
    else String.join (deps.filterMap (default_dep_export resolver exclude))
  banner ++ root_code ++ modules_code ++ default_code

/-- Concrete inner-bundle manifest (dependencies `anyhow`, `thiserror`)
used to evaluate the flattening path on a closed input. -/
def c1_bp_manifest : Toml :=
  Toml.table [
    ("package", Toml.table [
      ("metadata", Toml.table [
        ("battery", Toml.table [("schema_version", Toml.int 1)])])]),
    ("dependencies", Toml.table [
      ("anyhow", Toml.str ("1")), ("thiserror", Toml.str ("2"))])]

/-- Concrete manifest whose list-form `root` names `tokio` before
`serde`, against lexicographic order. -/
def c2_manifest : Toml :=
  Toml.table [
    ("package", Toml.table [
      ("metadata", Toml.table [
        ("battery", Toml.table [
          ("root", Toml.arr [Toml.str ("tokio"), Toml.str ("serde")])])])]),
    ("dependencies", Toml.table [
      ("serde", Toml.str ("1")), ("tokio", Toml.str ("1"))])]

/-- Concrete manifest whose only dependency is literally named `async`,
picked up by the zero-configuration default. -/
def c3_manifest : Toml :=
  Toml.table [
    ("package", Toml.table [
      ("metadata", Toml.table [
        ("battery", Toml.table [("schema_version", Toml.int 1)])])]),
    ("dependencies", Toml.table [("async", Toml.str ("1"))])]

/-- Concrete manifest whose map-form `root` entry for `util` lists the
item name `battery-pack`. -/
def c4_manifest : Toml :=
  Toml.table [
    ("package", Toml.table [
      ("metadata", Toml.table [
        ("battery", Toml.table [
          ("root", Toml.table [
            ("util", Toml.arr [Toml.str ("battery-pack")])])])])])]

/-- Concrete manifest with an explicit exclude list, a map-form `root`
whose item list names both excluded names, and a module literally named
`battery-pack`. -/
def c10_manifest : Toml :=
  Toml.table [
    ("package", Toml.table [
      ("metadata", Toml.table [
        ("battery", Toml.table [
          ("exclude", Toml.arr [Toml.str ("battery-pack"), Toml.str ("tokio")]),
          ("root", Toml.table [
            ("util", Toml.arr [Toml.str ("battery-pack"), Toml.str ("tokio")])]),
          ("modules", Toml.table [
            ("battery-pack", Toml.arr [Toml.str ("serde")])])])])]),
    ("dependencies", Toml.table [
      ("serde", Toml.str ("1")), ("tokio", Toml.str ("1")),
      ("util", Toml.str ("1"))])]

/-- Test-oracle replica of `tests::test_default_exports_all_deps`. -/
example :
    generate
      (Toml.table [
        ("package", Toml.table [
          ("name", Toml.str ("my-battery")),
          ("version", Toml.str ("0.1.0")),
          ("metadata", Toml.table [
            ("battery", Toml.table [("schema_version", Toml.int 1)])])]),
        ("dependencies", Toml.table [
          ("tokio", Toml.str ("1")), ("serde", Toml.str ("1"))])])
      (fun _ => none) =
    "// Auto-generated by battery-pack. Do not edit.\n\npub use serde;\npub use tokio;\n" := by
  decide

/-- Test-oracle replica of `tests::test_excludes_battery_pack`. -/
example :
    generate
      (Toml.table [
        ("package", Toml.table [
          ("metadata", Toml.table [
            ("battery", Toml.table [("schema_version", Toml.int 1)])])]),
        ("dependencies", Toml.table [
          ("battery-pack", Toml.str ("0.1")), ("tokio", Toml.str ("1"))])])
      (fun _ => none) =
    "// Auto-generated by battery-pack. Do not edit.\n\npub use tokio;\n" := by
  decide

/-- Test-oracle replica of `tests::test_explicit_root_array` (note the
configuration order `tokio`, `serde` is preserved). -/
example :
    generate
      (Toml.table [
        ("package", Toml.table [
          ("metadata", Toml.table [
            ("battery", Toml.table [
              ("schema_version", Toml.int 1),
              ("root", Toml.arr [Toml.str ("tokio"), Toml.str ("serde")])])])]),
        ("dependencies", Toml.table [
          ("tokio", Toml.str ("1")), ("serde", Toml.str ("1")),
          ("anyhow", Toml.str ("1"))])])
      (fun _ => none) =
    "// Auto-generated by battery-pack. Do not edit.\n\npub use tokio;\npub use serde;\n" := by
  decide

/-- Test-oracle replica of `tests::test_glob_reexport`. -/
example :
    generate
      (Toml.table [
        ("package", Toml.table [
          ("metadata", Toml.table [
            ("battery", Toml.table [
              ("schema_version", Toml.int 1),
              ("root", Toml.table [("tokio", Toml.str ("*"))])])])])])
      (fun _ => none) =
    "// Auto-generated by battery-pack. Do not edit.\n\npub use tokio::*;\n" := by
  decide

/-- Test-oracle replica of `tests::test_specific_items` (table keys are
sorted, the item lists keep configuration order). -/
example :
    generate
      (Toml.table [
        ("package", Toml.table [
          ("metadata", Toml.table [
            ("battery", Toml.table [
              ("schema_version", Toml.int 1),
              ("root", Toml.table [
                ("tokio", Toml.arr [Toml.str ("spawn"), Toml.str ("select")]),
                ("serde", Toml.arr [Toml.str ("Serialize"), Toml.str ("Deserialize")])])])])])])
      (fun _ => none) =
    "// Auto-generated by battery-pack. Do not edit.\n\npub use serde::\x7bSerialize, Deserialize\x7d;\npub use tokio::\x7bspawn, select\x7d;\n" := by
  decide

/-- Test-oracle replica of `tests::test_modules`. -/
example :
    generate
      (Toml.table [
        ("package", Toml.table [
          ("metadata", Toml.table [
            ("battery", Toml.table [
              ("schema_version", Toml.int 1),
              ("modules", Toml.table [
                ("http", Toml.arr [Toml.str ("reqwest"), Toml.str ("tower")]),
                ("async", Toml.arr [Toml.str ("tokio")])])])])]),
        ("dependencies", Toml.table [
          ("reqwest", Toml.str ("0.11")), ("tower", Toml.str ("0.4")),
          ("tokio", Toml.str ("1"))])])
      (fun _ => none) =
    "// Auto-generated by battery-pack. Do not edit.\n\n\npub mod r#async \x7b\n    pub use tokio;\n\x7d\n\npub mod http \x7b\n    pub use reqwest;\n    pub use tower;\n\x7d\n" := by
  decide

/-- Test-oracle replica of `tests::test_battery_pack_reexport`. -/
example :
    generate
      (Toml.table [
        ("package", Toml.table [
          ("metadata", Toml.table [
            ("battery", Toml.table [("schema_version", Toml.int 1)])])]),
        ("dependencies", Toml.table [
          ("error-bp", Toml.str ("0.1")), ("clap", Toml.str ("4"))])])
      (in_memory_resolve [
        ("error-bp", Toml.table [
          ("package", Toml.table [
            ("metadata", Toml.table [
              ("battery", Toml.table [("schema_version", Toml.int 1)])])]),
          ("dependencies", Toml.table [
            ("anyhow", Toml.str ("1")), ("thiserror", Toml.str ("2"))])])]) =
    "// Auto-generated by battery-pack. Do not edit.\n\npub use clap;\npub use error_bp::anyhow;\npub use error_bp::thiserror;\n" := by
  decide

/-- Test-oracle replica of `tests::test_hyphenated_crate_names`. -/
example :
    generate
      (Toml.table [
        ("package", Toml.table [
          ("metadata", Toml.table [
            ("battery", Toml.table [("schema_version", Toml.int 1)])])]),
        ("dependencies", Toml.table [
          ("tracing-subscriber", Toml.str ("0.3")), ("serde-json", Toml.str ("1"))])])
      (fun _ => none) =
    "// Auto-generated by battery-pack. Do not edit.\n\npub use serde_json;\npub use tracing_subscriber;\n" := by
  decide

/-- Test-oracle replica of `tests::test_custom_exclude`. -/
example :
    generate
      (Toml.table [
        ("package", Toml.table [
          ("metadata", Toml.table [
            ("battery", Toml.table [
              ("schema_version", Toml.int 1),
              ("exclude", Toml.arr [Toml.str ("internal-crate")])])])]),
        ("dependencies", Toml.table [
          ("tokio", Toml.str ("1")), ("internal-crate", Toml.str ("0.1"))])])
      (fun _ => none) =
    "// Auto-generated by battery-pack. Do not edit.\n\npub use tokio;\n" := by
  decide

/-- Totality of the embedded string order. -/
theorem charListLe_total : ∀ a b : List Char, charListLe a b = true ∨ charListLe b a = true := by
  intro a
  induction a with
  | nil => intro b; left; rfl
  | cons x xs ih =>
    intro b
    cases b with
    | nil => right; rfl
    | cons y ys =>
      by_cases hxy : x = y
      · subst hxy
        simpa [charListLe] using ih ys
      · rcases lt_or_gt_of_ne hxy with h | h
        · left
          unfold charListLe
          rw [if_neg hxy]
          exact decide_eq_true h
        · right
          unfold charListLe
          rw [if_neg (Ne.symm hxy)]
          exact decide_eq_true h

/-- Transitivity of the embedded string order. -/
theorem charListLe_trans :
    ∀ a b c : List Char, charListLe a b = true → charListLe b c = true →
      charListLe a c = true := by
  intro a
  induction a with
  | nil => intro b c h1 h2; rfl
  | cons x xs ih =>
    intro b c h1 h2
    cases b with
    | nil => simp [charListLe] at h1
    | cons y ys =>
      cases c with
      | nil => simp [charListLe] at h2
      | cons z zs =>
        unfold charListLe at h1 h2 ⊢
        by_cases hxy : x = y
        · subst hxy
          rw [if_pos rfl] at h1
          by_cases hyz : x = z
          · subst hyz
            rw [if_pos rfl] at h2
            rw [if_pos rfl]
            exact ih ys zs h1 h2
          · rw [if_neg hyz] at h2
            rw [if_neg hyz]
            exact h2
        · rw [if_neg hxy] at h1
          replace h1 : x < y := of_decide_eq_true h1
          by_cases hyz : y = z
          · subst hyz
            rw [if_neg hxy]
            exact decide_eq_true h1
          · rw [if_neg hyz] at h2
            replace h2 : y < z := of_decide_eq_true h2
            have hlt : x < z := lt_trans h1 h2
            rw [if_neg (ne_of_lt hlt)]
            exact decide_eq_true hlt

instance : IsTotal String strle :=
  ⟨fun a b => charListLe_total a.data b.data⟩

instance : IsTrans String strle :=
  ⟨fun a b c h1 h2 => charListLe_trans a.data b.data c.data h1 h2⟩

instance : IsTotal (String × Toml) keyLe :=
  ⟨fun a b => charListLe_total a.1.data b.1.data⟩

instance : IsTrans (String × Toml) keyLe :=
  ⟨fun a b c h1 h2 => charListLe_trans a.1.data b.1.data c.1.data h1 h2⟩

/-- Joining a one-element list of strings. -/
theorem string_join_singleton (x : String) : String.join [x] = x := by
  simp [String.join, List.foldl, String.empty_append]

/-- Joining a two-element list of strings. -/
theorem string_join_pair (x y : String) : String.join [x, y] = x ++ y := by
  simp [String.join, List.foldl, String.empty_append]

/-- String items survive the `filter_map(as_str)` of the generator. -/
theorem filterMap_asStr_map_str (items : List String) :
    (items.map Toml.str).filterMap Toml.asStr = items := by
  induction items with
  | nil => rfl
  | cons x xs ih => simp [Toml.asStr, ih]

/-- C1: when the resolver reports that a dependency named in the
zero-config default or a list-form export is a bundle, `generate`
(through `generate_dep_export`) emits no direct re-export of the
dependency itself: it emits exactly one qualified re-export
`pub use dep::inner;` per dependency of the inner bundle that is not in
the inner bundle's own exclude set, and the flattening is one level
deep — the emitted text never consults the resolver about the inner
dependencies, so an inner bundle stays a single qualified re-export. -/
theorem c1_one_level_flattening (resolver : String → Option Toml)
    (crate_name indent : String) (bp_manifest : Toml)
    (h : resolver crate_name = some bp_manifest) :
    generate_dep_export resolver crate_name indent =
      String.join ((bp_deps_of bp_manifest).filterMap (fun dep =>
        if (bp_exclude_of bp_manifest).contains dep then none
        else some (indent ++ "pub use " ++ sanitize crate_name ++ "::" ++
          sanitize dep ++ ";\n")))
    ∧ (∀ resolver2 : String → Option Toml, resolver2 crate_name = some bp_manifest →
        generate_dep_export resolver2 crate_name indent =
          generate_dep_export resolver crate_name indent) := by
  constructor
  · unfold generate_dep_export
    rw [h]
    rfl
  · intro resolver2 h2
    unfold generate_dep_export
    rw [h, h2]

/-- Closed instantiation of the C1 theorem: flattening `error-bp`, a
bundle with dependencies `anyhow` and `thiserror`, on a concrete
resolver. -/
theorem c1_one_level_flattening_witness :
    generate_dep_export (in_memory_resolve [("error-bp", c1_bp_manifest)])
      ("error-bp") ("") =
      "pub use error_bp::anyhow;\npub use error_bp::thiserror;\n" := by
  have h := (c1_one_level_flattening
    (in_memory_resolve [("error-bp", c1_bp_manifest)])
    ("error-bp") ("") c1_bp_manifest rfl).1
  rw [h]
  decide

/-- C2 counterexample: the list form of a root export spec is emitted in
configuration order, not lexicographic order.  With
`root = ["tokio", "serde"]` the output lists `tokio` before `serde`
although `tokio` does not precede `serde` lexicographically. -/
theorem c2_counterexample :
    generate c2_manifest (fun _ => none) =
      "// Auto-generated by battery-pack. Do not edit.\n\npub use tokio;\npub use serde;\n"
    ∧ string_le ("tokio") ("serde") = false := by
  decide

/-- C2 (amended): the zero-config dependency order, the entry keys of a
map-form root or module spec, and the module names are emitted in
lexicographic order, while the list form of a root export spec keeps the
configuration order. -/
theorem c2_lexicographic_emission (m : Toml) (t : List (String × Toml))
    (resolver : String → Option Toml) (exclude : List String)
    (items : List Toml) :
    List.Sorted strle (get_dependencies m)
    ∧ List.Sorted strle ((sortByKey t).map Prod.fst)
    ∧ generate_root_exports resolver (Toml.arr items) exclude =
        String.join (items.filterMap (list_item_export resolver exclude (""))) := by
  refine ⟨?_, ?_, rfl⟩
  · exact List.sorted_insertionSort strle _
  · have hs : List.Sorted keyLe (sortByKey t) := List.sorted_insertionSort keyLe t
    exact List.pairwise_map.mpr hs

/-- C3 counterexample: a dependency literally named `async` is emitted
without the raw-identifier escape (`pub use async;`), and a module name
keeps its hyphens (`pub mod my-http`), so reserved-word escaping applies
only to module names and hyphen replacement only to dependency names. -/
theorem c3_counterexample :
    generate c3_manifest (fun _ => none) =
      "// Auto-generated by battery-pack. Do not edit.\n\npub use async;\n"
    ∧ is_rust_keyword ("async") = true
    ∧ occursIn ("r#") (generate c3_manifest (fun _ => none)) = false
    ∧ generate_module_exports (fun _ => none)
        (Toml.table [("my-http", Toml.arr [Toml.str ("tokio")])])
        (get_exclude_set none) =
      "\npub mod my-http \x7b\n    pub use tokio;\n\x7d\n" := by
  decide

/-- C3 (amended): dependency names used in emitted identifiers have
every hyphen replaced by an underscore but are never keyword-escaped;
module names are emitted verbatim except that a module name equal to a
Rust reserved word is prefixed with the raw-identifier marker `r#`. -/
theorem c3_sanitization (resolver : String → Option Toml)
    (crate_name indent module_name : String)
    (h : resolver crate_name = none) :
    generate_dep_export resolver crate_name indent =
      indent ++ "pub use " ++ sanitize crate_name ++ ";\n"
    ∧ sanitize ("tracing-subscriber") = "tracing_subscriber"
    ∧ (is_rust_keyword module_name = true → mod_ident module_name = "r#" ++ module_name)
    ∧ (is_rust_keyword module_name = false → mod_ident module_name = module_name) := by
  refine ⟨?_, by decide, ?_, ?_⟩
  · unfold generate_dep_export
    rw [h]
  · intro hk
    unfold mod_ident
    rw [hk]
    rfl
  · intro hk
    unfold mod_ident
    rw [hk]
    rfl

/-- Closed instantiation of the C3 amended theorem at the dependency
`tracing-subscriber` and the module name `async`. -/
theorem c3_sanitization_witness :
    generate_dep_export (fun _ => none) ("tracing-subscriber") ("") =
      "pub use tracing_subscriber;\n"
    ∧ mod_ident ("async") = "r#async" := by
  have h := c3_sanitization (fun _ => none) ("tracing-subscriber") ("")
    ("async") rfl
  exact ⟨h.1.trans (by decide), (h.2.2.1 (by decide)).trans (by decide)⟩

/-- C4 counterexample: `battery-pack` is in the exclude set, yet the
generated output contains the string `battery-pack`, because item names
inside a selective map-form entry are emitted without an exclusion
check. -/
theorem c4_counterexample :
    (get_exclude_set (get_battery c4_manifest)).contains ("battery-pack") = true
    ∧ occursIn ("battery-pack") (generate c4_manifest (fun _ => none)) = true
    ∧ generate c4_manifest (fun _ => none) =
        "// Auto-generated by battery-pack. Do not edit.\n\npub use util::\x7bbattery-pack\x7d;\n" := by
  decide

/-- C4 (amended): the name `battery-pack` is always a member of the
exclude set computed for the outer manifest and of the exclude set
computed for every flattened inner bundle, regardless of the explicit
exclude configuration (it can nevertheless appear in the output as an
item or module name, per the counterexample). -/
theorem c4_self_exclusion (battery : Option Toml) (bp_manifest : Toml) :
    "battery-pack" ∈ get_exclude_set battery
    ∧ "battery-pack" ∈ bp_exclude_of bp_manifest := by
  constructor
  · exact List.mem_cons_self _ _
  · exact List.mem_cons_self _ _

/-- C5: a manifest with neither `root` nor `modules` configured and a
two-entry dependency table whose entries are neither bundles nor
excluded yields exactly two top-level re-exports, in lexicographic
order of the dependency names. -/
theorem c5_zero_config_default (manifest : Toml) (resolver : String → Option Toml)
    (x y : String) (tx ty : Toml)
    (hdeps : manifest.get ("dependencies") = some (Toml.table [(x, tx), (y, ty)]))
    (hroot : (get_battery manifest).bind (fun b => b.get ("root")) = none)
    (hmods : (get_battery manifest).bind (fun b => b.get ("modules")) = none)
    (hrx : resolver x = none) (hry : resolver y = none)
    (hxx : (get_exclude_set (get_battery manifest)).contains x = false)
    (hxy : (get_exclude_set (get_battery manifest)).contains y = false) :
    generate manifest resolver =
      "// Auto-generated by battery-pack. Do not edit.\n\n" ++
      (if string_le x y then
        ("pub use " ++ sanitize x ++ ";\n") ++ ("pub use " ++ sanitize y ++ ";\n")
       else
        ("pub use " ++ sanitize y ++ ";\n") ++ ("pub use " ++ sanitize x ++ ";\n")) := by
  have hd : get_dependencies manifest = sortStrings [x, y] := by
    unfold get_dependencies
    rw [hdeps]
    rfl
  simp only [generate, hroot, hmods, hd]
  by_cases hle : string_le x y = true
  · have hs : sortStrings [x, y] = [x, y] := by
      simp [sortStrings, List.insertionSort, List.orderedInsert, strle, hle]
    rw [hs]
    simp only [List.filterMap, default_dep_export, hxx, hxy, Bool.false_eq_true,
      if_false, generate_dep_export, hrx, hry, string_join_pair]
    simp [String.append_empty, String.empty_append, hle]
  · have hs : sortStrings [x, y] = [y, x] := by
      simp [sortStrings, List.insertionSort, List.orderedInsert, strle, hle]
    rw [hs]
    simp only [List.filterMap, default_dep_export, hxx, hxy, Bool.false_eq_true,
      if_false, generate_dep_export, hrx, hry, string_join_pair]
    simp [String.append_empty, String.empty_append, hle]

/-- Closed instantiation of the C5 theorem: dependencies `tokio` and
`serde`, no explicit configuration, two sorted re-exports. -/
theorem c5_zero_config_default_witness :
    generate
      (Toml.table [
        ("package", Toml.table [
          ("metadata", Toml.table [
            ("battery", Toml.table [("schema_version", Toml.int 1)])])]),
        ("dependencies", Toml.table [
          ("tokio", Toml.str ("1")), ("serde", Toml.str ("1"))])])
      (fun _ => none) =
    "// Auto-generated by battery-pack. Do not edit.\n\npub use serde;\npub use tokio;\n" := by
  have h := c5_zero_config_default
    (Toml.table [
      ("package", Toml.table [
        ("metadata", Toml.table [
          ("battery", Toml.table [("schema_version", Toml.int 1)])])]),
      ("dependencies", Toml.table [
        ("tokio", Toml.str ("1")), ("serde", Toml.str ("1"))])])
    (fun _ => none) ("tokio") ("serde") (Toml.str ("1")) (Toml.str ("1"))
    rfl rfl rfl rfl rfl rfl rfl
  exact h.trans (by decide)

/-- C6: whenever `root` or `modules` is present in the bundle metadata —
in any shape — the output of `generate` is exactly the banner followed
by the explicitly configured root and module exports, with no fallback
export of the dependency set: the result does not mention the
dependency table at all.  In particular `root = [x]` with dependencies
x, y, z produces only the export for x. -/
theorem c6_explicit_config_suppresses_default (manifest : Toml)
    (resolver : String → Option Toml)
    (h : ((get_battery manifest).bind (fun b => b.get ("root"))).isSome = true ∨
         ((get_battery manifest).bind (fun b => b.get ("modules"))).isSome = true) :
    generate manifest resolver =
      "// Auto-generated by battery-pack. Do not edit.\n\n" ++
      (match (get_battery manifest).bind (fun b => b.get ("root")) with
        | some root =>
          generate_root_exports resolver root (get_exclude_set (get_battery manifest))
        | none => "") ++
      (match (get_battery manifest).bind (fun b => b.get ("modules")) with
        | some modules =>
          generate_module_exports resolver modules (get_exclude_set (get_battery manifest))
        | none => "") := by
  cases hroot : (get_battery manifest).bind (fun b => b.get ("root")) with
  | none =>
    cases hmods : (get_battery manifest).bind (fun b => b.get ("modules")) with
    | none =>
      rw [hroot, hmods] at h
      simp at h
    | some modules =>
      simp [generate, hroot, hmods, String.append_empty, String.empty_append]
  | some root =>
    cases hmods : (get_battery manifest).bind (fun b => b.get ("modules")) with
    | none =>
      simp [generate, hroot, hmods, String.append_empty, String.empty_append]
    | some modules =>
      simp [generate, hroot, hmods]

/-- Closed instantiations of the C6 theorem: a list-form root
`root = ["serde"]` with dependencies serde, tokio, anyhow yields exactly
one export; a modules-only manifest exports nothing but the configured
module (its other dependency tokio is not auto-exported); a two-entry
table-form root yields exactly its two configured exports. -/
theorem c6_explicit_config_suppresses_default_witness :
    generate
      (Toml.table [
        ("package", Toml.table [
          ("metadata", Toml.table [
            ("battery", Toml.table [
              ("root", Toml.arr [Toml.str ("serde")])])])]),
        ("dependencies", Toml.table [
          ("serde", Toml.str ("1")), ("tokio", Toml.str ("1")),
          ("anyhow", Toml.str ("1"))])])
      (fun _ => none) =
    "// Auto-generated by battery-pack. Do not edit.\n\npub use serde;\n"
    ∧ generate
      (Toml.table [
        ("package", Toml.table [
          ("metadata", Toml.table [
            ("battery", Toml.table [
              ("modules", Toml.table [
                ("http", Toml.arr [Toml.str ("reqwest")])])])])]),
        ("dependencies", Toml.table [
          ("reqwest", Toml.str ("0.11")), ("tokio", Toml.str ("1"))])])
      (fun _ => none) =
    "// Auto-generated by battery-pack. Do not edit.\n\n\npub mod http \x7b\n    pub use reqwest;\n\x7d\n"
    ∧ generate
      (Toml.table [
        ("package", Toml.table [
          ("metadata", Toml.table [
            ("battery", Toml.table [
              ("root", Toml.table [
                ("serde", Toml.str ("*")),
                ("tokio", Toml.arr [Toml.str ("spawn")])])])])]),
        ("dependencies", Toml.table [
          ("serde", Toml.str ("1")), ("tokio", Toml.str ("1")),
          ("anyhow", Toml.str ("1"))])])
      (fun _ => none) =
    "// Auto-generated by battery-pack. Do not edit.\n\npub use serde::*;\npub use tokio::\x7bspawn\x7d;\n" := by
  refine ⟨?_, ?_, ?_⟩
  · have h := c6_explicit_config_suppresses_default
      (Toml.table [
        ("package", Toml.table [
          ("metadata", Toml.table [
            ("battery", Toml.table [
              ("root", Toml.arr [Toml.str ("serde")])])])]),
        ("dependencies", Toml.table [
          ("serde", Toml.str ("1")), ("tokio", Toml.str ("1")),
          ("anyhow", Toml.str ("1"))])])
      (fun _ => none) (Or.inl rfl)
    exact h.trans (by decide)
  · have h := c6_explicit_config_suppresses_default
      (Toml.table [
        ("package", Toml.table [
          ("metadata", Toml.table [
            ("battery", Toml.table [
              ("modules", Toml.table [
                ("http", Toml.arr [Toml.str ("reqwest")])])])])]),
        ("dependencies", Toml.table [
          ("reqwest", Toml.str ("0.11")), ("tokio", Toml.str ("1"))])])
      (fun _ => none) (Or.inr rfl)
    exact h.trans (by decide)
  · have h := c6_explicit_config_suppresses_default
      (Toml.table [
        ("package", Toml.table [
          ("metadata", Toml.table [
            ("battery", Toml.table [
              ("root", Toml.table [
                ("serde", Toml.str ("*")),
                ("tokio", Toml.arr [Toml.str ("spawn")])])])])]),
        ("dependencies", Toml.table [
          ("serde", Toml.str ("1")), ("tokio", Toml.str ("1")),
          ("anyhow", Toml.str ("1"))])])
      (fun _ => none) (Or.inl rfl)
    exact h.trans (by decide)

/-- C7: a non-excluded map-form entry with the wildcard string emits a
glob re-export, and one with a non-empty list of item strings emits a
single re-export naming exactly those items in configuration order. -/
theorem c7_wildcard_and_selective (exclude : List String)
    (indent crate_name : String) (items : List String)
    (hx : exclude.contains crate_name = false) (hne : items ≠ []) :
    map_entry_export exclude indent (crate_name, Toml.str ("*")) =
      some (indent ++ "pub use " ++ sanitize crate_name ++ "::*;\n")
    ∧ map_entry_export exclude indent (crate_name, Toml.arr (items.map Toml.str)) =
      some (indent ++ "pub use " ++ sanitize crate_name ++ "::\x7b" ++
        String.intercalate (", ") items ++ "\x7d;\n") := by
  have hfm := filterMap_asStr_map_str items
  have hmem : crate_name ∉ exclude := by simpa using hx
  have hie : items.isEmpty = false := by
    cases items with
    | nil => exact absurd rfl hne
    | cons a l => rfl
  constructor
  · simp [map_entry_export, hmem]
  · simp [map_entry_export, hmem, hfm, hie]

/-- Closed instantiation of the C7 theorem at `tokio = "*"` and
`tokio = ["spawn", "select"]`. -/
theorem c7_wildcard_and_selective_witness :
    map_entry_export [] ("") (("tokio"), Toml.str ("*")) =
      some ("pub use tokio::*;\n")
    ∧ map_entry_export [] ("")
        (("tokio"), Toml.arr [Toml.str ("spawn"), Toml.str ("select")]) =
      some ("pub use tokio::\x7bspawn, select\x7d;\n") := by
  have h := c7_wildcard_and_selective [] ("") ("tokio") (["spawn", "select"])
    rfl (by decide)
  exact ⟨h.1.trans (by decide), h.2.trans (by decide)⟩

/-- C8: a dependency name in the exclude set is never the subject of an
emitted export: the zero-config default skips it, a list-form root (or
module) entry naming it explicitly skips it, and a map-form root (or
module) entry keyed by it skips it whatever its configured value. -/
theorem c8_exclude_precedence (resolver : String → Option Toml)
    (exclude : List String) (crate_name indent : String) (config : Toml)
    (hx : exclude.contains crate_name = true) :
    default_dep_export resolver exclude crate_name = none
    ∧ list_item_export resolver exclude indent (Toml.str crate_name) = none
    ∧ map_entry_export exclude indent (crate_name, config) = none := by
  have hmem : crate_name ∈ exclude := by simpa using hx
  refine ⟨?_, ?_, ?_⟩
  · simp [default_dep_export, hmem]
  · simp [list_item_export, Toml.asStr, hmem]
  · simp [map_entry_export, hmem]

/-- Closed instantiation of the C8 theorem: an explicitly excluded
dependency is skipped by every emission path. -/
theorem c8_exclude_precedence_witness :
    default_dep_export (fun _ => none) ["internal-crate"] ("internal-crate") = none
    ∧ list_item_export (fun _ => none) ["internal-crate"] ("")
        (Toml.str ("internal-crate")) = none
    ∧ map_entry_export ["internal-crate"] ("")
        (("internal-crate"), Toml.str ("*")) = none :=
  c8_exclude_precedence (fun _ => none) ["internal-crate"] ("internal-crate")
    ("") (Toml.str ("*")) rfl

/-- C9: generation never fails and degrades instead: a filesystem
resolver whose read or parse step fails reports "not a bundle"
(`none`); a dependency the resolver does not recognise gets the plain
re-export; a map-form entry of any shape other than wildcard string or
item array (and a non-wildcard string) is silently skipped; a root or
modules value of a non-spec shape emits nothing at all. -/
theorem c9_degrades_never_fails (paths : List (String × String))
    (read_file : String → Option String) (parse_toml : String → Option Toml)
    (resolver : String → Option Toml) (exclude : List String)
    (crate_name indent s : String) (kvs : List (String × Toml)) (n : Int) (b : Bool)
    (hfail : (paths.lookup crate_name).bind read_file = none ∨
      ∃ content, (paths.lookup crate_name).bind read_file = some content ∧
        parse_toml content = none)
    (hr : resolver crate_name = none)
    (hs : s ≠ "*") :
    file_system_resolve paths read_file parse_toml crate_name = none
    ∧ generate_dep_export resolver crate_name indent =
        indent ++ "pub use " ++ sanitize crate_name ++ ";\n"
    ∧ map_entry_export exclude indent (crate_name, Toml.table kvs) = none
    ∧ map_entry_export exclude indent (crate_name, Toml.int n) = none
    ∧ map_entry_export exclude indent (crate_name, Toml.boolean b) = none
    ∧ map_entry_export exclude indent (crate_name, Toml.str s) = none
    ∧ generate_root_exports resolver (Toml.str s) exclude = ""
    ∧ generate_root_exports resolver (Toml.int n) exclude = ""
    ∧ generate_module_exports resolver (Toml.str s) exclude = "" := by
  have hbeq : (s == "*") = false := beq_eq_false_iff_ne.mpr hs
  refine ⟨?_, ?_, ?_, ?_, ?_, ?_, rfl, rfl, rfl⟩
  · unfold file_system_resolve
    rcases hfail with h | ⟨content, hc, hp⟩
    · cases hpl : paths.lookup crate_name with
      | none => rfl
      | some p =>
        rw [hpl] at h
        simp only [Option.some_bind] at h
        simp [h]
    · cases hpl : paths.lookup crate_name with
      | none => rfl
      | some p =>
        rw [hpl] at hc
        simp only [Option.some_bind] at hc
        simp [hc, hp]
  · unfold generate_dep_export
    rw [hr]
  · cases hc : exclude.contains crate_name <;> simp [map_entry_export, hc]
  · cases hc : exclude.contains crate_name <;> simp [map_entry_export, hc]
  · cases hc : exclude.contains crate_name <;> simp [map_entry_export, hc]
  · cases hc : exclude.contains crate_name <;> simp [map_entry_export, hc, hbeq]

/-- Closed instantiation of the C9 theorem: an unreadable dependency
manifest makes the filesystem resolver answer "not a bundle", and
generation emits the plain re-export for that dependency. -/
theorem c9_degrades_never_fails_witness :
    file_system_resolve [("serde", "/deps/serde/Cargo.toml")]
      (fun _ => none) (fun _ => none) ("serde") = none
    ∧ generate_dep_export (fun _ => none) ("serde") ("") = "pub use serde;\n" := by
  have h := c9_degrades_never_fails [("serde", "/deps/serde/Cargo.toml")]
    (fun _ => none) (fun _ => none) (fun _ => none) [] ("serde") ("") ("1")
    [] 0 true (Or.inl rfl) rfl (by decide)
  exact ⟨h.1, h.2.1.trans (by decide)⟩

/-- C10: the exclude set is consulted only for names in dependency-name
position.  On a manifest that excludes `battery-pack` (implicitly) and
`tokio` (explicitly), both names still appear in the output: as item
names of a selective map-form entry and, for `battery-pack`, also as a
module name. -/
theorem c10_exclusion_misses_items_and_modules :
    (get_exclude_set (get_battery c10_manifest)).contains ("battery-pack") = true
    ∧ (get_exclude_set (get_battery c10_manifest)).contains ("tokio") = true
    ∧ generate c10_manifest (fun _ => none) =
        "// Auto-generated by battery-pack. Do not edit.\n\npub use util::\x7bbattery-pack, tokio\x7d;\n\npub mod battery-pack \x7b\n    pub use serde;\n\x7d\n"
    ∧ occursIn ("battery-pack") (generate c10_manifest (fun _ => none)) = true
    ∧ occursIn ("tokio") (generate c10_manifest (fun _ => none)) = true := by
  decide
